import Mathlib

/-!
# Error wrapping and inspection in `main.go`

A shallow embedding of the error values of `main.go` (sentinels, `*ConfigError`,
`fmt.Errorf` wraps), of the two library walks `errors.Is` / `errors.As` the program
calls, and of the three functions `loadAppConfig`, `fetchData`, `processRequest`.

Modelling decisions.

* A Go `error` interface value is a term of `error`; the nil interface is `error.nil`.
  Every non-nil value of the program is a pointer (`*errors.errorString`,
  `*fmt.wrapError`, `*ConfigError`) to an allocated object; pointers that are nil
  inside a non-nil interface do not occur in the program and are not represented.
* Pointer identity.  The targets of every `errors.Is` call of the program are
  package-level variables created by `errors.New`.  A `*errors.errorString` therefore
  carries a `Ref` saying which allocation it is: a package-level variable, named, or an
  allocation made during a call.  Go's `==` on two error values is rendered as equality
  of terms, which is exact whenever one side is a package-level sentinel.
* Standard output is a list of writes, one entry per `fmt.Printf` / `fmt.Println` call.
-/

namespace ErrorDemo

/-! ## Error values -/

/-- Which allocation a `*errors.errorString` pointer refers to. -/
inductive Ref where
  /-- the object allocated once by the initialiser of a package-level `var` -/
  | pkg (name : String)
  /-- an object allocated by an `errors.New` / `fmt.Errorf` call inside a function -/
  | call
  deriving DecidableEq, Repr

/-- Values of Go's `error` interface that the program can build. -/
inductive error where
  /-- the nil interface value -/
  | nil
  /-- a `*errors.errorString`, what `errors.New` returns; it has no `Unwrap` method -/
  | errorString (p : Ref) (s : String)
  /-- a `*fmt.wrapError`, what `fmt.Errorf` returns for a format with one `%w` -/
  | wrapError (msg : String) (err : error)
  /-- a `*ConfigError` (main.go, lines 15-19), fields in declaration order -/
  | ptrConfigError (FileName : String) (Op : String) (Err : error)
  deriving DecidableEq, Repr

/-- The struct `ConfigError` of main.go, lines 15-19. -/
structure ConfigError where
  FileName : String
  Op : String
  Err : error
  deriving DecidableEq, Repr

/-- A `*ConfigError` stored in an `error` interface. -/
def ConfigError.toError (ce : ConfigError) : error :=
  .ptrConfigError ce.FileName ce.Op ce.Err

/-- What the verb `%v` (and `%w`, which formats like `%v`) prints for an `error` operand:
`<nil>` for the nil interface, the result of the `Error()` method otherwise.  The
`ptrConfigError` line is the format string of `ConfigError.Error`, main.go line 22. -/
def fmt.verbV : error → String
  | .nil => "<nil>"
  | .errorString _ s => s
  | .wrapError msg _ => msg
  | .ptrConfigError FileName Op Err =>
      "config error during '" ++ Op ++ "' for file '" ++ FileName ++ "': " ++ fmt.verbV Err

/-- The method `(ce *ConfigError) Error() string`, main.go lines 21-23:
`fmt.Sprintf("config error during '%s' for file '%s': %v", ce.Op, ce.FileName, ce.Err)`. -/
def ConfigError.Error (ce : ConfigError) : String :=
  "config error during '" ++ ce.Op ++ "' for file '" ++ ce.FileName ++ "': " ++ fmt.verbV ce.Err

/-- The method `(ce *ConfigError) Unwrap() error`, main.go lines 26-28. -/
def ConfigError.Unwrap (ce : ConfigError) : error :=
  ce.Err

/-- The `Error()` method called through the interface.  Calling it on the nil interface
panics, which is `none`. -/
def error.Error : error → Option String
  | .nil => none
  | .errorString _ s => some s
  | .wrapError msg _ => some msg
  | .ptrConfigError FileName Op Err => some (ConfigError.Error ⟨FileName, Op, Err⟩)

/-- The function `errors.Unwrap`: the result of the value's `Unwrap() error` method when it
has one (`*fmt.wrapError` returns its `err`, `*ConfigError` its `Err`), nil otherwise. -/
def errors.Unwrap : error → error
  | .nil => .nil
  | .errorString _ _ => .nil
  | .wrapError _ err => err
  | .ptrConfigError FileName Op Err => ConfigError.Unwrap ⟨FileName, Op, Err⟩

/-- The function `errors.New`, called inside a function body. -/
def errors.New (text : String) : error :=
  .errorString .call text

/-- The call `fmt.Errorf(format, ..., err)` for a format that ends in its only `%w`;
`msg` is the rendering of the format before the `%w`.  A nil operand is not an error
value: the verb prints `%!w(<nil>)` and the result is a plain `errors.New`. -/
def fmt.Errorf (msg : String) (err : error) : error :=
  match err with
  | .nil => errors.New (msg ++ "%!w(<nil>)")
  | e => .wrapError (msg ++ fmt.verbV e) e

/-! ## Sentinels -/

/-- The package variable `ErrResourceNotFound`, main.go line 12. -/
def ErrResourceNotFound : error :=
  .errorString (.pkg "main.ErrResourceNotFound") "resource not found"

/-- The standard library's `os.ErrNotExist` (`errors.New("file does not exist")`). -/
def os.ErrNotExist : error :=
  .errorString (.pkg "os.ErrNotExist") "file does not exist"

/-- The standard library's `sql.ErrNoRows` (`errors.New("sql: no rows in result set")`). -/
def sql.ErrNoRows : error :=
  .errorString (.pkg "sql.ErrNoRows") "sql: no rows in result set"

/-! ## The two walks of package `errors` -/

/-- The loop `is` of `errors.Is` for a comparable target: compare the current element
with `==`, then follow `Unwrap() error` and stop with `false` when there is no such method
or it returns nil.  None of the three pointer types has an `Is` method. -/
def errors.isLoop : error → error → Bool
  | .nil, _ => false
  | .errorString p s, target => decide (error.errorString p s = target)
  | .wrapError msg err, target =>
      decide (error.wrapError msg err = target) || errors.isLoop err target
  | .ptrConfigError FileName Op Err, target =>
      decide (error.ptrConfigError FileName Op Err = target) || errors.isLoop Err target

/-- The function `errors.Is(err, target)`: when either side is nil the answer is
`err == target`, otherwise the walk. -/
def errors.Is (err target : error) : Bool :=
  if err = .nil ∨ target = .nil then decide (err = target)
  else errors.isLoop err target

/-- The call `errors.As(err, &ce)` with `var ce *ConfigError`: `none` is the result
`false` (ce untouched), `some c` the result `true` with `ce` set to the first element of
the chain whose dynamic type is `*ConfigError`.  None of the pointer types has an `As`
method. -/
def errors.As : error → Option ConfigError
  | .nil => none
  | .errorString _ _ => none
  | .wrapError _ err => errors.As err
  | .ptrConfigError FileName Op Err => some ⟨FileName, Op, Err⟩

/-- The error chain: the value and everything reached from it by repeated `Unwrap`,
outermost first. -/
def chain : error → List error
  | .nil => []
  | .errorString p s => [.errorString p s]
  | .wrapError msg err => .wrapError msg err :: chain err
  | .ptrConfigError FileName Op Err => .ptrConfigError FileName Op Err :: chain Err

/-- Whether the dynamic type of the value is `*ConfigError`. -/
def isConfigError : error → Bool
  | .ptrConfigError _ _ _ => true
  | _ => false

/-- The type assertion `err.(*ConfigError)` on a single value. -/
def asConfigError : error → Option ConfigError
  | .ptrConfigError FileName Op Err => some ⟨FileName, Op, Err⟩
  | _ => none

/-! ## Building chains by wrapping -/

/-- One wrapping step: a generic `fmt.Errorf("<msg>%w", e)` wrap or a
`&ConfigError{FileName, Op, e}` wrap. -/
inductive Layer where
  | generic (msg : String)
  | config (FileName : String) (Op : String)
  deriving DecidableEq, Repr

/-- Applies one wrapping step to an error. -/
def Layer.wrap : Layer → error → error
  | .generic msg, e => fmt.Errorf msg e
  | .config FileName Op, e => ConfigError.toError ⟨FileName, Op, e⟩

/-- Wraps `base` repeatedly; the head of the list is the outermost layer. -/
def wrapAll (ls : List Layer) (base : error) : error :=
  ls.foldr Layer.wrap base

/-! ## The program -/

/-- The result of running a function that writes to standard output: the writes in order
and the returned value. -/
structure Ran (α : Type) where
  stdout : List String
  ret : α
  deriving DecidableEq, Repr

/-- The function `loadAppConfig`, main.go lines 33-55. -/
def loadAppConfig (filePath : String) : Ran error :=
  if filePath = "missing.json" then
    let originalErr := os.ErrNotExist
    ⟨[], ConfigError.toError
      { FileName := filePath
        Op := "open file"
        Err := fmt.Errorf "failed to open: " originalErr }⟩
  else if filePath = "invalid.json" then
    let originalErr := errors.New "invalid JSON structure"
    ⟨[], ConfigError.toError
      { FileName := filePath
        Op := "parse content"
        Err := originalErr }⟩
  else
    ⟨["Successfully loaded config: " ++ filePath ++ "\n"], .nil⟩

/-- The function `fetchData`, main.go lines 58-70: the data string and the error. -/
def fetchData (queryID : String) : String × error :=
  if queryID = "123" then
    ("Sample Data", .nil)
  else if queryID = "notfound_db" then
    ("", fmt.Errorf ("database query for ID '" ++ queryID ++ "' failed: ") sql.ErrNoRows)
  else if queryID = "custom_resource_err" then
    ("", fmt.Errorf "could not retrieve resource data: " ErrResourceNotFound)
  else
    ("", errors.New ("unknown query ID: " ++ queryID))

/-- The function `processRequest`, main.go lines 73-110. -/
def processRequest (configPath dataQueryID : String) : Ran error :=
  let out := ["\n--- Processing request with config '" ++ configPath ++
    "' and data query '" ++ dataQueryID ++ "' ---\n"]
  let r := loadAppConfig configPath
  let out := out ++ r.stdout
  let err := r.ret
  if err ≠ .nil then
    let out :=
      match errors.As err with
      | some ce =>
          let out := out ++ ["Detailed Config Error: Operation '" ++ ce.Op ++
            "' on file '" ++ ce.FileName ++ "' failed.\n"]
          if errors.Is ce.Unwrap os.ErrNotExist then
            out ++ ["  Underlying cause: File does not exist. Attempting fallback...\n"]
          else out
      | none => out ++ ["An unexpected error occurred while loading config.\n"]
    ⟨out, fmt.Errorf "failed during config stage: " err⟩
  else
    let (data, err) := fetchData dataQueryID
    if err ≠ .nil then
      let out :=
        if errors.Is err sql.ErrNoRows then
          out ++ ["Data Fetch Error: The requested data was not found in the database (sql.ErrNoRows).\n"]
        else if errors.Is err ErrResourceNotFound then
          out ++ ["Data Fetch Error: A specific custom resource was not found (ErrResourceNotFound).\n"]
        else
          out ++ ["An unknown error occurred while fetching data.\n"]
      ⟨out, fmt.Errorf "failed during data fetching stage: " err⟩
    else
      ⟨out ++ ["Successfully processed request. Data: " ++ data ++ "\n"], .nil⟩

/-- A value a function hands back to its caller: a `string` or an `error`. -/
inductive Value where
  | str (s : String)
  | err (e : error)
  deriving DecidableEq, Repr

/-- The result list of `processRequest` as its signature declares it, main.go line 73:
`func processRequest(configPath string, dataQueryID string) error`, one `error` and
nothing else. -/
def processRequest.results (configPath dataQueryID : String) : List Value :=
  [.err (processRequest configPath dataQueryID).ret]

/-- The result list of `fetchData` as its signature declares it, main.go line 58:
`func fetchData(queryID string) (string, error)`. -/
def fetchData.results (queryID : String) : List Value :=
  [.str (fetchData queryID).1, .err (fetchData queryID).2]

/-! ## Basic facts about the library model -/

theorem Errorf_ne_nil (msg : String) (e : error) : fmt.Errorf msg e ≠ .nil := by
  cases e <;> simp [fmt.Errorf, errors.New]

theorem Errorf_of_ne_nil (msg : String) {e : error} (h : e ≠ .nil) :
    fmt.Errorf msg e = .wrapError (msg ++ fmt.verbV e) e := by
  cases e
  · exact absurd rfl h
  all_goals rfl

theorem Unwrap_Errorf (msg : String) (e : error) : errors.Unwrap (fmt.Errorf msg e) = e := by
  cases e <;> rfl

theorem verbV_of_Error {c : error} {m : String} (h : c.Error = some m) : fmt.verbV c = m := by
  cases c <;> simp_all [error.Error, fmt.verbV, ConfigError.Error]

theorem isLoop_iff_mem_chain (e t : error) : errors.isLoop e t = true ↔ t ∈ chain e := by
  induction e with
  | nil => simp [errors.isLoop, chain]
  | errorString p s =>
      simp only [errors.isLoop, chain, decide_eq_true_eq, List.mem_singleton]
      exact eq_comm
  | wrapError msg err ih =>
      simp only [errors.isLoop, chain, Bool.or_eq_true, decide_eq_true_eq, List.mem_cons, ih]
      exact or_congr_left eq_comm
  | ptrConfigError f o err ih =>
      simp only [errors.isLoop, chain, Bool.or_eq_true, decide_eq_true_eq, List.mem_cons, ih]
      exact or_congr_left eq_comm

theorem Is_iff_mem_chain (e : error) {t : error} (ht : t ≠ .nil) :
    errors.Is e t = true ↔ t ∈ chain e := by
  unfold errors.Is
  by_cases he : e = .nil
  · subst he
    simp [chain, ht, eq_comm]
  · simp [he, ht, isLoop_iff_mem_chain]

theorem loadAppConfig_missing :
    loadAppConfig "missing.json" =
      ⟨[], .ptrConfigError "missing.json" "open file"
        (.wrapError "failed to open: file does not exist" os.ErrNotExist)⟩ := by
  rfl

theorem loadAppConfig_invalid :
    loadAppConfig "invalid.json" =
      ⟨[], .ptrConfigError "invalid.json" "parse content"
        (.errorString .call "invalid JSON structure")⟩ := by
  rfl

theorem loadAppConfig_other {p : String} (h1 : p ≠ "missing.json") (h2 : p ≠ "invalid.json") :
    loadAppConfig p = ⟨["Successfully loaded config: " ++ p ++ "\n"], .nil⟩ := by
  simp [loadAppConfig, h1, h2]

theorem loadAppConfig_ret_eq_nil_iff (p : String) :
    (loadAppConfig p).ret = .nil ↔ p ≠ "missing.json" ∧ p ≠ "invalid.json" := by
  by_cases h1 : p = "missing.json"
  · subst h1; simp [loadAppConfig_missing]
  · by_cases h2 : p = "invalid.json"
    · subst h2; simp [loadAppConfig_invalid]
    · simp [loadAppConfig_other h1 h2, h1, h2]

theorem fetchData_snd_eq_nil_iff (q : String) : (fetchData q).2 = .nil ↔ q = "123" := by
  unfold fetchData
  split_ifs with h1 h2 h3 <;> simp [h1, Errorf_ne_nil, errors.New]

theorem processRequest_ret_of_config_fail {p : String} (q : String)
    (h : (loadAppConfig p).ret ≠ .nil) :
    (processRequest p q).ret = fmt.Errorf "failed during config stage: " (loadAppConfig p).ret := by
  simp [processRequest, h]

theorem processRequest_ret_of_config_ok {p : String} (q : String)
    (h : (loadAppConfig p).ret = .nil) :
    (processRequest p q).ret =
      if (fetchData q).2 ≠ .nil then
        fmt.Errorf "failed during data fetching stage: " (fetchData q).2
      else .nil := by
  simp only [processRequest, h]
  split_ifs <;> simp_all

/-! ## The structured error type -/

/-- C1: for every file name, operation and cause (the nil cause included), `Unwrap` on the
`ConfigError` built from these three fields returns exactly that cause; the same holds when
the method is reached through the interface by `errors.Unwrap`. -/
theorem C1_unwrap_returns_cause (FileName Op : String) (cause : error) :
    ConfigError.Unwrap { FileName := FileName, Op := Op, Err := cause } = cause ∧
    errors.Unwrap (ConfigError.toError { FileName := FileName, Op := Op, Err := cause })
      = cause := by
  exact ⟨rfl, rfl⟩

/-- C2: for a `ConfigError` with file name `f`, operation `o` and a present cause `c`, the
cause has a rendered message `m` and `Error()` returns exactly
`"config error during '" ++ o ++ "' for file '" ++ f ++ "': " ++ m`; the result contains
`o`, `f` and `m` as substrings. -/
theorem C2_error_message_with_cause (f o : String) (c : error) (hc : c ≠ .nil) :
    ∃ m : String, c.Error = some m ∧
      ConfigError.Error { FileName := f, Op := o, Err := c }
        = "config error during '" ++ o ++ "' for file '" ++ f ++ "': " ++ m ∧
      (∃ a b, ConfigError.Error { FileName := f, Op := o, Err := c } = a ++ o ++ b) ∧
      (∃ a b, ConfigError.Error { FileName := f, Op := o, Err := c } = a ++ f ++ b) ∧
      (∃ a b, ConfigError.Error { FileName := f, Op := o, Err := c } = a ++ m ++ b) := by
  obtain ⟨m, hm⟩ : ∃ m, c.Error = some m := by
    cases c
    · exact absurd rfl hc
    all_goals exact ⟨_, rfl⟩
  have hv : fmt.verbV c = m := verbV_of_Error hm
  refine ⟨m, hm, ?_, ?_, ?_, ?_⟩
  · simp [ConfigError.Error, hv]
  · exact ⟨"config error during '", "' for file '" ++ f ++ "': " ++ m, by
      simp [ConfigError.Error, hv, String.append_assoc]⟩
  · exact ⟨"config error during '" ++ o ++ "' for file '", "': " ++ m, by
      simp [ConfigError.Error, hv, String.append_assoc]⟩
  · exact ⟨"config error during '" ++ o ++ "' for file '" ++ f ++ "': ", "", by
      simp [ConfigError.Error, hv, String.append_assoc]⟩

/-- Witness of C2 on the error built by `loadAppConfig "invalid.json"`. -/
theorem C2_error_message_with_cause_witness :
    errors.New "invalid JSON structure" ≠ .nil ∧
    ∃ m : String, (errors.New "invalid JSON structure").Error = some m ∧
      ConfigError.Error
          { FileName := "invalid.json", Op := "parse content",
            Err := errors.New "invalid JSON structure" }
        = "config error during '" ++ "parse content" ++ "' for file '" ++ "invalid.json"
            ++ "': " ++ m ∧
      (∃ a b, ConfigError.Error
          { FileName := "invalid.json", Op := "parse content",
            Err := errors.New "invalid JSON structure" } = a ++ "parse content" ++ b) ∧
      (∃ a b, ConfigError.Error
          { FileName := "invalid.json", Op := "parse content",
            Err := errors.New "invalid JSON structure" } = a ++ "invalid.json" ++ b) ∧
      (∃ a b, ConfigError.Error
          { FileName := "invalid.json", Op := "parse content",
            Err := errors.New "invalid JSON structure" } = a ++ m ++ b) :=
  ⟨by simp [errors.New],
   C2_error_message_with_cause "invalid.json" "parse content"
     (errors.New "invalid JSON structure") (by simp [errors.New])⟩

/-- C3: rendering is total: for every `ConfigError` whose cause is nil, `Error()` returns
`"config error during '<Op>' for file '<FileName>': <nil>"`, also when the method is called
through the interface (the call yields a string, it does not panic). -/
theorem C3_error_message_nil_cause (FileName Op : String) :
    ConfigError.Error { FileName := FileName, Op := Op, Err := .nil }
      = "config error during '" ++ Op ++ "' for file '" ++ FileName ++ "': <nil>" ∧
    (ConfigError.toError { FileName := FileName, Op := Op, Err := .nil }).Error
      = some ("config error during '" ++ Op ++ "' for file '" ++ FileName ++ "': <nil>") := by
  have key : ConfigError.Error { FileName := FileName, Op := Op, Err := .nil }
      = "config error during '" ++ Op ++ "' for file '" ++ FileName ++ "': <nil>" := by
    show "config error during '" ++ Op ++ "' for file '" ++ FileName ++ "': " ++ "<nil>" = _
    rw [String.append_assoc _ "': " "<nil>"]
    rfl
  exact ⟨key, congrArg some key⟩

/-! ## The pipeline keeps the failing stage's error -/

/-- C4: whenever `processRequest` returns an error, one `Unwrap` of it is exactly the
error of the stage that failed: the value returned by `loadAppConfig configPath` when
stage 1 failed, otherwise the error returned by `fetchData dataQueryID`. -/
theorem C4_unwrap_is_stage_error (configPath dataQueryID : String)
    (h : (processRequest configPath dataQueryID).ret ≠ .nil) :
    errors.Unwrap (processRequest configPath dataQueryID).ret =
      (if (loadAppConfig configPath).ret ≠ .nil then (loadAppConfig configPath).ret
       else (fetchData dataQueryID).2) ∧
    errors.Unwrap (processRequest configPath dataQueryID).ret ≠ .nil := by
  by_cases h1 : (loadAppConfig configPath).ret = .nil
  · rw [processRequest_ret_of_config_ok dataQueryID h1] at h ⊢
    by_cases h2 : (fetchData dataQueryID).2 = .nil
    · simp [h2] at h
    · simp [h1, h2, Unwrap_Errorf]
  · rw [processRequest_ret_of_config_fail dataQueryID h1]
    simp [h1, Unwrap_Errorf]

/-- Witness of C4 on the third scenario of `main`, a stage-2 failure. -/
theorem C4_unwrap_is_stage_error_witness :
    (processRequest "valid.json" "notfound_db").ret ≠ .nil ∧
    errors.Unwrap (processRequest "valid.json" "notfound_db").ret =
      (if (loadAppConfig "valid.json").ret ≠ .nil then (loadAppConfig "valid.json").ret
       else (fetchData "notfound_db").2) ∧
    errors.Unwrap (processRequest "valid.json" "notfound_db").ret ≠ .nil :=
  ⟨by decide, C4_unwrap_is_stage_error "valid.json" "notfound_db" (by decide)⟩

/-! ## Identity match and type match over a chain -/

theorem chain_wrap (l : Layer) (e : error) : chain (l.wrap e) = l.wrap e :: chain e := by
  cases l with
  | generic msg => cases e <;> rfl
  | config f o => rfl

theorem wrap_ne_pkg (l : Layer) (e : error) (name msg : String) :
    l.wrap e ≠ .errorString (.pkg name) msg := by
  cases l with
  | generic m => cases e <;> simp [Layer.wrap, fmt.Errorf, errors.New]
  | config f o => simp [Layer.wrap, ConfigError.toError]

theorem length_chain_wrapAll (ls : List Layer) (b : error) :
    (chain (wrapAll ls b)).length = ls.length + (chain b).length := by
  induction ls with
  | nil => simp [wrapAll]
  | cons l ls ih =>
      have h : wrapAll (l :: ls) b = l.wrap (wrapAll ls b) := rfl
      rw [h, chain_wrap, List.length_cons, ih, List.length_cons]
      omega

theorem pkg_mem_chain_wrapAll (ls : List Layer) (b : error) (name msg : String) :
    error.errorString (.pkg name) msg ∈ chain (wrapAll ls b) ↔
      error.errorString (.pkg name) msg ∈ chain b := by
  induction ls with
  | nil => simp [wrapAll]
  | cons l ls ih =>
      have h : wrapAll (l :: ls) b = l.wrap (wrapAll ls b) := rfl
      rw [h, chain_wrap, List.mem_cons, ih]
      constructor
      · rintro (h1 | h1)
        · exact absurd h1.symm (wrap_ne_pkg l _ name msg)
        · exact h1
      · exact Or.inr

theorem getElem_chain_wrapAll (ls : List Layer) (b : error) (i : Nat) :
    (chain (wrapAll ls b))[ls.length + i]? = (chain b)[i]? := by
  induction ls with
  | nil => simp [wrapAll]
  | cons l ls ih =>
      have h : wrapAll (l :: ls) b = l.wrap (wrapAll ls b) := rfl
      have h2 : (l :: ls).length + i = (ls.length + i) + 1 := by simp; omega
      rw [h, chain_wrap, h2, List.getElem?_cons_succ, ih]

/-- C5: identity match over chains, for every sentinel `s` (a package-level
`errors.New` value).  (a) If `s` is the element at some depth `i` of the chain of `e`,
`errors.Is e s` is true.  (b) If `s` is no element of the chain of `e`, it is false.
(c) A chain built by wrapping `s` in any list of generic and `ConfigError` layers has one
element per layer plus `s` at the innermost depth, and `errors.Is` finds `s` from the
outermost error.  (d) Wrapping a base whose chain does not hold `s` never makes
`errors.Is` true. -/
theorem C5_is_finds_sentinel (name msg : String) :
    (∀ (e : error) (i : Nat), (chain e)[i]? = some (.errorString (.pkg name) msg) →
      errors.Is e (.errorString (.pkg name) msg) = true) ∧
    (∀ e : error, error.errorString (.pkg name) msg ∉ chain e →
      errors.Is e (.errorString (.pkg name) msg) = false) ∧
    (∀ ls : List Layer,
      (chain (wrapAll ls (.errorString (.pkg name) msg))).length = ls.length + 1 ∧
      (chain (wrapAll ls (.errorString (.pkg name) msg)))[ls.length]?
        = some (.errorString (.pkg name) msg) ∧
      errors.Is (wrapAll ls (.errorString (.pkg name) msg)) (.errorString (.pkg name) msg)
        = true) ∧
    (∀ (ls : List Layer) (b : error), error.errorString (.pkg name) msg ∉ chain b →
      errors.Is (wrapAll ls b) (.errorString (.pkg name) msg) = false) := by
  have hs : error.errorString (.pkg name) msg ≠ .nil := by simp
  refine ⟨?_, ?_, ?_, ?_⟩
  · intro e i hi
    exact (Is_iff_mem_chain e hs).2 (List.mem_iff_getElem?.2 ⟨i, hi⟩)
  · intro e he
    rw [← Bool.not_eq_true]
    exact fun h => he ((Is_iff_mem_chain e hs).1 h)
  · intro ls
    have hget := getElem_chain_wrapAll ls (.errorString (.pkg name) msg) 0
    simp only [Nat.add_zero] at hget
    refine ⟨?_, ?_, ?_⟩
    · rw [length_chain_wrapAll]; rfl
    · rw [hget]; rfl
    · refine (Is_iff_mem_chain _ hs).2 ((pkg_mem_chain_wrapAll ls _ name msg).2 ?_)
      simp [chain]
  · intro ls b hb
    rw [← Bool.not_eq_true]
    exact fun h => hb ((pkg_mem_chain_wrapAll ls b name msg).1 ((Is_iff_mem_chain _ hs).1 h))

/-- Witness of C5: `os.ErrNotExist` under a generic wrap, a `ConfigError` wrap and a
second generic wrap is found at depth 3, and `sql.ErrNoRows`, never placed, is not. -/
theorem C5_is_finds_sentinel_witness :
    (chain (wrapAll [.generic "failed during config stage: ", .config "missing.json" "open file",
        .generic "failed to open: "] os.ErrNotExist))[3]? = some os.ErrNotExist ∧
    errors.Is (wrapAll [.generic "failed during config stage: ",
        .config "missing.json" "open file", .generic "failed to open: "] os.ErrNotExist)
      os.ErrNotExist = true ∧
    sql.ErrNoRows ∉ chain os.ErrNotExist ∧
    errors.Is (wrapAll [.generic "failed during config stage: ",
        .config "missing.json" "open file", .generic "failed to open: "] os.ErrNotExist)
      sql.ErrNoRows = false :=
  ⟨by decide,
   (C5_is_finds_sentinel "os.ErrNotExist" "file does not exist").1 _ 3 (by decide),
   by decide,
   (C5_is_finds_sentinel "sql.ErrNoRows" "sql: no rows in result set").2.2.2 _ _ (by decide)⟩

theorem As_eq_find (e : error) :
    errors.As e = ((chain e).find? isConfigError).bind asConfigError := by
  induction e with
  | nil => rfl
  | errorString p s => rfl
  | wrapError msg err ih => simpa [errors.As, chain, isConfigError] using ih
  | ptrConfigError f o err _ => rfl

theorem As_wrap_generic (msg : String) (e : error) :
    errors.As (fmt.Errorf msg e) = errors.As e := by
  cases e <;> rfl

/-- C6: type match for `*ConfigError` over chains.  (a) `errors.As` returns the first
element of the chain, walking from the outermost error inward, whose type is
`*ConfigError`.  (b) It reports not-found exactly when no element of the chain is a
`*ConfigError`.  (c) Any number of generic `%w` wraps on top of an error leaves the
returned element unchanged. -/
theorem C6_as_returns_first_config_error (e : error) :
    (errors.As e).map ConfigError.toError = (chain e).find? isConfigError ∧
    errors.As e = ((chain e).find? isConfigError).bind asConfigError ∧
    (errors.As e = none ↔ ∀ x ∈ chain e, isConfigError x = false) ∧
    (∀ msgs : List String,
      errors.As (wrapAll (msgs.map Layer.generic) e) = errors.As e) := by
  refine ⟨?_, As_eq_find e, ?_, ?_⟩
  · induction e with
    | nil => rfl
    | errorString p s => rfl
    | wrapError msg err ih => simpa [errors.As, chain, isConfigError] using ih
    | ptrConfigError f o err _ => rfl
  · induction e with
    | nil => simp [errors.As, chain]
    | errorString p s => simp [errors.As, chain, isConfigError]
    | wrapError msg err ih => simpa [errors.As, chain, isConfigError] using ih
    | ptrConfigError f o err _ => simp [errors.As, chain, isConfigError]
  · intro msgs
    induction msgs with
    | nil => rfl
    | cons m ms ih =>
        have h : wrapAll ((m :: ms).map Layer.generic) e
            = fmt.Errorf m (wrapAll (ms.map Layer.generic) e) := rfl
        rw [h, As_wrap_generic, ih]

/-! ## The scenarios of `main` -/

/-- C7: `processRequest "missing.json" "123"` returns an error; its chain contains a
`ConfigError` with `Op = "open file"` and `FileName = "missing.json"` (the one that
`errors.As` returns); the terminal element of the chain is `os.ErrNotExist`; and
`errors.Is` for `os.ErrNotExist` on the returned error is true. -/
theorem C7_missing_config_scenario :
    (processRequest "missing.json" "123").ret ≠ .nil ∧
    error.ptrConfigError "missing.json" "open file"
        (.wrapError "failed to open: file does not exist" os.ErrNotExist)
      ∈ chain (processRequest "missing.json" "123").ret ∧
    (errors.As (processRequest "missing.json" "123").ret).map (fun ce => (ce.Op, ce.FileName))
      = some ("open file", "missing.json") ∧
    (chain (processRequest "missing.json" "123").ret).getLast? = some os.ErrNotExist ∧
    errors.Unwrap os.ErrNotExist = .nil ∧
    errors.Is (processRequest "missing.json" "123").ret os.ErrNotExist = true := by
  refine ⟨?_, ?_, ?_, ?_, ?_, ?_⟩ <;> decide

/-- C8: the two data-stage failures are told apart by identity match.  The error of
`processRequest "valid.json" "notfound_db"` matches `sql.ErrNoRows` and not
`ErrResourceNotFound`; the error of `processRequest "valid.json" "custom_resource_err"`
matches `ErrResourceNotFound` and not `sql.ErrNoRows`; in each case the matched sentinel
is the terminal element of the chain. -/
theorem C8_data_failures_distinguishable :
    (errors.Is (processRequest "valid.json" "notfound_db").ret sql.ErrNoRows = true ∧
     errors.Is (processRequest "valid.json" "notfound_db").ret ErrResourceNotFound = false ∧
     (chain (processRequest "valid.json" "notfound_db").ret).getLast? = some sql.ErrNoRows) ∧
    (errors.Is (processRequest "valid.json" "custom_resource_err").ret ErrResourceNotFound
        = true ∧
     errors.Is (processRequest "valid.json" "custom_resource_err").ret sql.ErrNoRows = false ∧
     (chain (processRequest "valid.json" "custom_resource_err").ret).getLast?
        = some ErrResourceNotFound) ∧
    sql.ErrNoRows ≠ ErrResourceNotFound := by
  refine ⟨⟨?_, ?_, ?_⟩, ⟨?_, ?_, ?_⟩, ?_⟩ <;> decide

/-! ## The two stages of the pipeline -/

/-- C9: a stage-1 failure short-circuits.  When `loadAppConfig configPath` fails, the path
is `"missing.json"` or `"invalid.json"`, and for any two query identifiers
`processRequest` returns the same error: the `%w` wrap of `loadAppConfig`'s error whose
message is `"failed during config stage: "` followed by that error's message. -/
theorem C9_stage1_failure_short_circuits (configPath q1 q2 : String)
    (h : (loadAppConfig configPath).ret ≠ .nil) :
    (configPath = "missing.json" ∨ configPath = "invalid.json") ∧
    (processRequest configPath q1).ret = (processRequest configPath q2).ret ∧
    (processRequest configPath q1).ret =
      .wrapError ("failed during config stage: " ++ fmt.verbV (loadAppConfig configPath).ret)
        (loadAppConfig configPath).ret := by
  refine ⟨?_, ?_, ?_⟩
  · by_contra hne
    rw [not_or] at hne
    exact h ((loadAppConfig_ret_eq_nil_iff configPath).2 hne)
  · rw [processRequest_ret_of_config_fail q1 h, processRequest_ret_of_config_fail q2 h]
  · rw [processRequest_ret_of_config_fail q1 h, Errorf_of_ne_nil _ h]

/-- Witness of C9 on `"invalid.json"` with the queries `"123"` and `"notfound_db"`. -/
theorem C9_stage1_failure_short_circuits_witness :
    (loadAppConfig "invalid.json").ret ≠ .nil ∧
    ("invalid.json" = "missing.json" ∨ "invalid.json" = "invalid.json") ∧
    (processRequest "invalid.json" "123").ret = (processRequest "invalid.json" "notfound_db").ret ∧
    (processRequest "invalid.json" "123").ret =
      .wrapError ("failed during config stage: " ++ fmt.verbV (loadAppConfig "invalid.json").ret)
        (loadAppConfig "invalid.json").ret :=
  ⟨by decide, C9_stage1_failure_short_circuits "invalid.json" "123" "notfound_db" (by decide)⟩

/-- C10: `processRequest configPath dataQueryID` returns no error if and only if
`configPath` is neither `"missing.json"` nor `"invalid.json"` and `dataQueryID` is `"123"`;
when stage 1 succeeds and `fetchData` fails, the returned error is the `%w` wrap of
`fetchData`'s error whose message is `"failed during data fetching stage: "` followed by
that error's message. -/
theorem C10_success_iff_and_stage2_wrap (configPath dataQueryID : String) :
    ((processRequest configPath dataQueryID).ret = .nil ↔
      configPath ≠ "missing.json" ∧ configPath ≠ "invalid.json" ∧ dataQueryID = "123") ∧
    ((loadAppConfig configPath).ret = .nil → (fetchData dataQueryID).2 ≠ .nil →
      (processRequest configPath dataQueryID).ret =
        .wrapError
          ("failed during data fetching stage: " ++ fmt.verbV (fetchData dataQueryID).2)
          (fetchData dataQueryID).2) := by
  constructor
  · by_cases h1 : (loadAppConfig configPath).ret = .nil
    · have hp := (loadAppConfig_ret_eq_nil_iff configPath).1 h1
      rw [processRequest_ret_of_config_ok dataQueryID h1]
      by_cases h2 : (fetchData dataQueryID).2 = .nil
      · have hq := (fetchData_snd_eq_nil_iff dataQueryID).1 h2
        rw [if_neg (not_not.2 h2)]
        exact ⟨fun _ => ⟨hp.1, hp.2, hq⟩, fun _ => rfl⟩
      · have hq : dataQueryID ≠ "123" := fun hq => h2 ((fetchData_snd_eq_nil_iff _).2 hq)
        simp [h2, hq, Errorf_ne_nil]
    · have hp : ¬ (configPath ≠ "missing.json" ∧ configPath ≠ "invalid.json") :=
        fun hp => h1 ((loadAppConfig_ret_eq_nil_iff configPath).2 hp)
      rw [processRequest_ret_of_config_fail dataQueryID h1]
      constructor
      · intro h; exact absurd h (Errorf_ne_nil _ _)
      · rintro ⟨a, b, _⟩; exact absurd ⟨a, b⟩ hp
  · intro h1 h2
    rw [processRequest_ret_of_config_ok dataQueryID h1, if_pos h2, Errorf_of_ne_nil _ h2]

/-- Witness of C10 on the fourth scenario of `main`. -/
theorem C10_success_iff_and_stage2_wrap_witness :
    (loadAppConfig "valid.json").ret = .nil ∧
    (fetchData "custom_resource_err").2 ≠ .nil ∧
    (processRequest "valid.json" "custom_resource_err").ret =
      .wrapError
        ("failed during data fetching stage: " ++ fmt.verbV (fetchData "custom_resource_err").2)
        (fetchData "custom_resource_err").2 :=
  ⟨by decide, by decide,
   (C10_success_iff_and_stage2_wrap "valid.json" "custom_resource_err").2
     (by decide) (by decide)⟩

/-! ## The success scenario -/

/-- C11, as stated, fails: the result list of `processRequest "valid.json" "123"` holds no
data string, so the call does not return the fetched data `"Sample Data"`. -/
theorem C11_data_not_returned :
    ¬ (Value.str "Sample Data" ∈ processRequest.results "valid.json" "123" ∧
       (processRequest "valid.json" "123").ret = .nil) := by
  decide

/-- C11, amended: `processRequest "valid.json" "123"` returns no error and nothing else;
the data fetched by `fetchData "123"` is exactly `"Sample Data"`, and it reaches the
caller only through standard output, in the last write
`"Successfully processed request. Data: Sample Data\n"`. -/
theorem C11_success_scenario :
    (processRequest "valid.json" "123").ret = .nil ∧
    processRequest.results "valid.json" "123" = [.err .nil] ∧
    fetchData.results "123" = [.str "Sample Data", .err .nil] ∧
    (processRequest "valid.json" "123").stdout =
      ["\n--- Processing request with config 'valid.json' and data query '123' ---\n",
       "Successfully loaded config: valid.json\n",
       "Successfully processed request. Data: " ++ (fetchData "123").1 ++ "\n"] ∧
    "Successfully processed request. Data: " ++ (fetchData "123").1 ++ "\n"
      = "Successfully processed request. Data: Sample Data\n" := by
  refine ⟨?_, ?_, ?_, ?_, ?_⟩ <;> decide

/-! ## The two stages as classifications of their input -/

/-- C12: `loadAppConfig` classifies every file path `p` three ways.  For
`p = "missing.json"` it returns a `ConfigError` with `FileName = p` and
`Op = "open file"` whose cause chain ends in `os.ErrNotExist`; for `p = "invalid.json"` a
`ConfigError` with `FileName = p` and `Op = "parse content"` whose cause is a generic
error that renders `"invalid JSON structure"` and has no further cause; for every other
`p` it returns no error. -/
theorem C12_loadAppConfig_classification (p : String) :
    (p = "missing.json" →
      ∃ cause, (loadAppConfig p).ret = .ptrConfigError p "open file" cause ∧
        (chain cause).getLast? = some os.ErrNotExist) ∧
    (p = "invalid.json" →
      ∃ cause, (loadAppConfig p).ret = .ptrConfigError p "parse content" cause ∧
        cause.Error = some "invalid JSON structure" ∧
        isConfigError cause = false ∧
        errors.Unwrap cause = .nil ∧ chain cause = [cause]) ∧
    (p ≠ "missing.json" → p ≠ "invalid.json" → (loadAppConfig p).ret = .nil) := by
  refine ⟨?_, ?_, ?_⟩
  · rintro rfl
    exact ⟨.wrapError "failed to open: file does not exist" os.ErrNotExist, by decide, by decide⟩
  · rintro rfl
    exact ⟨.errorString .call "invalid JSON structure", by decide, by decide, by decide,
      by decide, by decide⟩
  · intro h1 h2
    rw [loadAppConfig_other h1 h2]

/-- Witness of C12 on the three paths `"missing.json"`, `"invalid.json"`, `"valid.json"`. -/
theorem C12_loadAppConfig_classification_witness :
    (∃ cause, (loadAppConfig "missing.json").ret
        = .ptrConfigError "missing.json" "open file" cause ∧
      (chain cause).getLast? = some os.ErrNotExist) ∧
    (∃ cause, (loadAppConfig "invalid.json").ret
        = .ptrConfigError "invalid.json" "parse content" cause ∧
      cause.Error = some "invalid JSON structure" ∧
      isConfigError cause = false ∧
      errors.Unwrap cause = .nil ∧ chain cause = [cause]) ∧
    (loadAppConfig "valid.json").ret = .nil :=
  ⟨(C12_loadAppConfig_classification "missing.json").1 rfl,
   (C12_loadAppConfig_classification "invalid.json").2.1 rfl,
   (C12_loadAppConfig_classification "valid.json").2.2 (by decide) (by decide)⟩

/-- C13: `fetchData` classifies every query identifier `q` four ways.  `"123"` gives the
data `"Sample Data"` and no error; `"notfound_db"` gives an error that wraps
`sql.ErrNoRows`; `"custom_resource_err"` gives an error that wraps `ErrResourceNotFound`;
every other `q` gives an error whose message is `"unknown query ID: " ++ q`; and whenever
an error is returned the data string is empty. -/
theorem C13_fetchData_classification (q : String) :
    (q = "123" → fetchData q = ("Sample Data", .nil)) ∧
    (q = "notfound_db" →
      (fetchData q).2 ≠ .nil ∧ errors.Unwrap (fetchData q).2 = sql.ErrNoRows) ∧
    (q = "custom_resource_err" →
      (fetchData q).2 ≠ .nil ∧ errors.Unwrap (fetchData q).2 = ErrResourceNotFound) ∧
    (q ≠ "123" → q ≠ "notfound_db" → q ≠ "custom_resource_err" →
      (fetchData q).2.Error = some ("unknown query ID: " ++ q)) ∧
    ((fetchData q).2 ≠ .nil → (fetchData q).1 = "") := by
  refine ⟨?_, ?_, ?_, ?_, ?_⟩
  · rintro rfl; rfl
  · rintro rfl; exact ⟨by decide, by decide⟩
  · rintro rfl; exact ⟨by decide, by decide⟩
  · intro h1 h2 h3
    simp [fetchData, h1, h2, h3, errors.New, error.Error]
  · unfold fetchData
    split_ifs <;> simp

/-- Witness of C13, one query identifier per class. -/
theorem C13_fetchData_classification_witness :
    fetchData "123" = ("Sample Data", .nil) ∧
    ((fetchData "notfound_db").2 ≠ .nil ∧
      errors.Unwrap (fetchData "notfound_db").2 = sql.ErrNoRows) ∧
    ((fetchData "custom_resource_err").2 ≠ .nil ∧
      errors.Unwrap (fetchData "custom_resource_err").2 = ErrResourceNotFound) ∧
    (fetchData "42").2.Error = some ("unknown query ID: " ++ "42") ∧
    (fetchData "42").1 = "" :=
  ⟨(C13_fetchData_classification "123").1 rfl,
   (C13_fetchData_classification "notfound_db").2.1 rfl,
   (C13_fetchData_classification "custom_resource_err").2.2.1 rfl,
   (C13_fetchData_classification "42").2.2.2.1 (by decide) (by decide) (by decide),
   (C13_fetchData_classification "42").2.2.2.2 (by decide)⟩

/-! ## Unwrapping layer by layer -/

theorem Unwrap_wrap (l : Layer) (e : error) : errors.Unwrap (l.wrap e) = e := by
  cases l with
  | generic msg => exact Unwrap_Errorf msg e
  | config f o => rfl

/-- C14: for every error `E` and every two contexts `A` and `B`, generic or
`ConfigError`, wrapping `E` with `A` and then the result with `B` yields the chain
`B (A E)`, `A E`, then the chain of `E`, and unwrapping twice from the outermost error
returns exactly `E`.  This does not depend on how many generic wraps `E` already carries:
for any list of generic wraps around a base error, two unwraps return that wrapped error
unchanged.  Unwrapping twice the error returned by
`processRequest "valid.json" "notfound_db"` returns `sql.ErrNoRows`. -/
theorem C14_unwrap_twice (E : error) (A B : Layer) :
    errors.Unwrap (errors.Unwrap (B.wrap (A.wrap E))) = E ∧
    errors.Unwrap (B.wrap (A.wrap E)) = A.wrap E ∧
    chain (B.wrap (A.wrap E)) = B.wrap (A.wrap E) :: A.wrap E :: chain E ∧
    (∀ inner : List String,
      errors.Unwrap (errors.Unwrap
        (B.wrap (A.wrap (wrapAll (inner.map Layer.generic) E))))
        = wrapAll (inner.map Layer.generic) E) ∧
    errors.Unwrap (errors.Unwrap (processRequest "valid.json" "notfound_db").ret)
      = sql.ErrNoRows := by
  refine ⟨?_, Unwrap_wrap B _, ?_, ?_, by decide⟩
  · rw [Unwrap_wrap, Unwrap_wrap]
  · rw [chain_wrap, chain_wrap]
  · intro inner
    rw [Unwrap_wrap, Unwrap_wrap]

/-! ## The rendered message of the returned error -/

/-- C15: for every failing `(configPath, dataQueryID)` the message of the error returned
by `processRequest` is the stage text (`"failed during config stage: "` when stage 1
failed, `"failed during data fetching stage: "` otherwise) followed by the message of the
failing stage's error, and it ends with the message of the terminal element of the chain;
for `("missing.json", "123")` it is exactly `"failed during config stage: config error
during 'open file' for file 'missing.json': failed to open: file does not exist"`. -/
theorem C15_message_renders_chain (configPath dataQueryID : String)
    (h : (processRequest configPath dataQueryID).ret ≠ .nil) :
    (∃ im : String,
      (if (loadAppConfig configPath).ret ≠ .nil then (loadAppConfig configPath).ret
        else (fetchData dataQueryID).2).Error = some im ∧
      (processRequest configPath dataQueryID).ret.Error =
        some ((if (loadAppConfig configPath).ret ≠ .nil then "failed during config stage: "
          else "failed during data fetching stage: ") ++ im)) ∧
    (∃ (root : error) (rm pre : String),
      (chain (processRequest configPath dataQueryID).ret).getLast? = some root ∧
      errors.Unwrap root = .nil ∧
      root.Error = some rm ∧
      (processRequest configPath dataQueryID).ret.Error = some (pre ++ rm)) ∧
    (processRequest "missing.json" "123").ret.Error =
      some ("failed during config stage: config error during 'open file' for file " ++
        "'missing.json': failed to open: file does not exist") := by
  refine ⟨?_, ?_, by decide⟩
  · by_cases h1 : (loadAppConfig configPath).ret = .nil
    · rw [processRequest_ret_of_config_ok dataQueryID h1] at h ⊢
      by_cases h2 : (fetchData dataQueryID).2 = .nil
      · simp [h2] at h
      · rw [if_pos h2, Errorf_of_ne_nil _ h2]
        obtain ⟨im, him⟩ : ∃ im, (fetchData dataQueryID).2.Error = some im := by
          cases hf : (fetchData dataQueryID).2
          · exact absurd hf h2
          all_goals exact ⟨_, rfl⟩
        refine ⟨im, by simp [h1, him], ?_⟩
        simp [h1, error.Error, verbV_of_Error him]
    · rw [processRequest_ret_of_config_fail dataQueryID h1, Errorf_of_ne_nil _ h1]
      obtain ⟨im, him⟩ : ∃ im, (loadAppConfig configPath).ret.Error = some im := by
        cases hf : (loadAppConfig configPath).ret
        · exact absurd hf h1
        all_goals exact ⟨_, rfl⟩
      refine ⟨im, by simp [h1, him], ?_⟩
      simp [h1, error.Error, verbV_of_Error him]
  · by_cases h1 : (loadAppConfig configPath).ret = .nil
    · rw [processRequest_ret_of_config_ok dataQueryID h1] at h ⊢
      by_cases ha : dataQueryID = "123"
      · subst ha; exact absurd rfl h
      by_cases hb : dataQueryID = "notfound_db"
      · subst hb
        exact ⟨sql.ErrNoRows, "sql: no rows in result set",
          "failed during data fetching stage: database query for ID 'notfound_db' failed: ",
          by decide, by decide, by decide, by decide⟩
      by_cases hc : dataQueryID = "custom_resource_err"
      · subst hc
        exact ⟨ErrResourceNotFound, "resource not found",
          "failed during data fetching stage: could not retrieve resource data: ",
          by decide, by decide, by decide, by decide⟩
      have hf : (fetchData dataQueryID).2 = .errorString .call ("unknown query ID: " ++ dataQueryID) := by
        simp [fetchData, ha, hb, hc, errors.New]
      rw [hf]
      exact ⟨.errorString .call ("unknown query ID: " ++ dataQueryID),
        "unknown query ID: " ++ dataQueryID, "failed during data fetching stage: ",
        rfl, rfl, rfl, rfl⟩
    · rw [processRequest_ret_of_config_fail dataQueryID h1]
      by_cases ha : configPath = "missing.json"
      · subst ha
        exact ⟨os.ErrNotExist, "file does not exist",
          "failed during config stage: config error during 'open file' for file 'missing.json': failed to open: ",
          by decide, by decide, by decide, by decide⟩
      by_cases hb : configPath = "invalid.json"
      · subst hb
        exact ⟨.errorString .call "invalid JSON structure", "invalid JSON structure",
          "failed during config stage: config error during 'parse content' for file 'invalid.json': ",
          by decide, by decide, by decide, by decide⟩
      exact absurd ((loadAppConfig_ret_eq_nil_iff configPath).2 ⟨ha, hb⟩) h1

/-- Witness of C15 on the second scenario of `main`. -/
theorem C15_message_renders_chain_witness :
    (processRequest "invalid.json" "123").ret ≠ .nil ∧
    (∃ (root : error) (rm pre : String),
      (chain (processRequest "invalid.json" "123").ret).getLast? = some root ∧
      errors.Unwrap root = .nil ∧
      root.Error = some rm ∧
      (processRequest "invalid.json" "123").ret.Error = some (pre ++ rm)) :=
  ⟨by decide, (C15_message_renders_chain "invalid.json" "123" (by decide)).2.1⟩

/-! ## Edge cases of the two walks -/

/-- C16: edge cases of `errors.Is` and `errors.As`.  On the nil error the identity match
against any sentinel is false and the type match for `*ConfigError` is not-found.  When the
starting error is itself the target, both match at depth 0 of the chain: a sentinel matches
itself (and has nothing to unwrap), a `ConfigError` is returned by the type match as that
very value, whatever its cause, and matches itself by identity.  The identity match on the
`Unwrap` of a `ConfigError` with a nil cause, the call shape of main.go line 83, is
false. -/
theorem C16_inspection_edge_cases (name msg : String) (ce : ConfigError)
    (FileName Op : String) :
    (errors.Is .nil (.errorString (.pkg name) msg) = false ∧ errors.As .nil = none) ∧
    (errors.Is (.errorString (.pkg name) msg) (.errorString (.pkg name) msg) = true ∧
      (chain (.errorString (.pkg name) msg))[0]? = some (.errorString (.pkg name) msg) ∧
      errors.Unwrap (.errorString (.pkg name) msg) = .nil) ∧
    (errors.As ce.toError = some ce ∧
      asConfigError ce.toError = some ce ∧
      errors.Is ce.toError ce.toError = true ∧
      (chain ce.toError)[0]? = some ce.toError) ∧
    errors.Is (ConfigError.Unwrap { FileName := FileName, Op := Op, Err := .nil })
      (.errorString (.pkg name) msg) = false := by
  refine ⟨⟨?_, rfl⟩, ⟨?_, rfl, rfl⟩, ⟨rfl, rfl, ?_, ?_⟩, ?_⟩
  · simp [errors.Is]
  · simp [errors.Is, errors.isLoop]
  · simp [errors.Is, errors.isLoop, ConfigError.toError]
  · simp [ConfigError.toError, chain]
  · simp [errors.Is, ConfigError.Unwrap]

/-! ## What `processRequest` writes -/

theorem head_data_append {a : String} {c : Char} (h : a.data.head? = some c) (s : String) :
    (a ++ s).data.head? = some c := by
  rw [String.data_append]
  cases ha : a.data with
  | nil => rw [ha] at h; simp at h
  | cons x xs => rw [ha] at h; simpa using h

theorem ne_of_head_ne {x y : String} {c : Char} (hx : x.data.head? = some c)
    (hy : y.data.head? ≠ some c) : x ≠ y := by
  rintro rfl
  exact hy hx

theorem processRequest_stdout_missing (q : String) :
    (processRequest "missing.json" q).stdout =
      ["\n--- Processing request with config '" ++ "missing.json" ++
          "' and data query '" ++ q ++ "' ---\n",
       "Detailed Config Error: Operation 'open file' on file 'missing.json' failed.\n",
       "  Underlying cause: File does not exist. Attempting fallback...\n"] := by
  have hI : errors.Is (fmt.Errorf "failed to open: " os.ErrNotExist) os.ErrNotExist = true := by
    decide
  have hS : "Detailed Config Error: Operation '" ++ "open file" ++ "' on file '" ++
      "missing.json" ++ "' failed.\n"
      = "Detailed Config Error: Operation 'open file' on file 'missing.json' failed.\n" := by
    decide
  simp [processRequest, loadAppConfig_missing, errors.As, ConfigError.Unwrap, hI, hS]

theorem processRequest_stdout_invalid (q : String) :
    (processRequest "invalid.json" q).stdout =
      ["\n--- Processing request with config '" ++ "invalid.json" ++
          "' and data query '" ++ q ++ "' ---\n",
       "Detailed Config Error: Operation 'parse content' on file 'invalid.json' failed.\n"] := by
  have hI : errors.Is (errors.New "invalid JSON structure") os.ErrNotExist = false := by
    decide
  have hS : "Detailed Config Error: Operation '" ++ "parse content" ++ "' on file '" ++
      "invalid.json" ++ "' failed.\n"
      = "Detailed Config Error: Operation 'parse content' on file 'invalid.json' failed.\n" := by
    decide
  simp [processRequest, loadAppConfig_invalid, errors.As, ConfigError.Unwrap, hI, hS]

theorem processRequest_stdout_ok {p : String} (q : String)
    (h1 : p ≠ "missing.json") (h2 : p ≠ "invalid.json") :
    (processRequest p q).stdout =
      ["\n--- Processing request with config '" ++ p ++
          "' and data query '" ++ q ++ "' ---\n",
       "Successfully loaded config: " ++ p ++ "\n",
       if q = "123" then "Successfully processed request. Data: Sample Data\n"
       else if q = "notfound_db" then
         "Data Fetch Error: The requested data was not found in the database (sql.ErrNoRows).\n"
       else if q = "custom_resource_err" then
         "Data Fetch Error: A specific custom resource was not found (ErrResourceNotFound).\n"
       else "An unknown error occurred while fetching data.\n"] := by
  have hl := loadAppConfig_other h1 h2
  by_cases ha : q = "123"
  · subst ha
    have hS : "Successfully processed request. Data: " ++ "Sample Data" ++ "\n"
        = "Successfully processed request. Data: Sample Data\n" := by decide
    simp [processRequest, hl, fetchData, hS]
  by_cases hb : q = "notfound_db"
  · subst hb
    have hI : errors.Is (fetchData "notfound_db").2 sql.ErrNoRows = true := by decide
    have hn : (fetchData "notfound_db").2 ≠ .nil := by decide
    simp [processRequest, hl, hI, hn]
  by_cases hc : q = "custom_resource_err"
  · subst hc
    have hI : errors.Is (fetchData "custom_resource_err").2 sql.ErrNoRows = false := by decide
    have hJ : errors.Is (fetchData "custom_resource_err").2 ErrResourceNotFound = true := by
      decide
    have hn : (fetchData "custom_resource_err").2 ≠ .nil := by decide
    simp [processRequest, hl, hI, hJ, hn]
  have hf : fetchData q = ("", .errorString .call ("unknown query ID: " ++ q)) := by
    simp [fetchData, ha, hb, hc, errors.New]
  simp [processRequest, hl, hf, ha, hb, hc, errors.Is, errors.isLoop, sql.ErrNoRows,
    ErrResourceNotFound]

theorem firstLine_head (p q : String) :
    ("\n--- Processing request with config '" ++ p ++
      "' and data query '" ++ q ++ "' ---\n").data.head? = some '\n' :=
  head_data_append (head_data_append (head_data_append (head_data_append (by decide) _) _) _) _

theorem loadedLine_head (p : String) :
    ("Successfully loaded config: " ++ p ++ "\n").data.head? = some 'S' :=
  head_data_append (head_data_append (by decide) _) _

/-! ## Which branches of the config handling run -/

/-- C17: the config-stage failure for `"invalid.json"` has a generic cause, not a
missing-path cause.  For every `q` the error of `processRequest "invalid.json" q` contains
the `ConfigError` with `Op = "parse content"` whose cause is the leaf
`errors.New("invalid JSON structure")`, and it does not identity-match `os.ErrNotExist`.
Over all config paths and queries, the fallback branch (main.go lines 83-86) runs, that is
the line `"  Underlying cause: File does not exist. Attempting fallback...\n"` is written,
exactly when `configPath = "missing.json"`; equally, the identity match of the
`ConfigError`'s cause against `os.ErrNotExist` is true exactly for that path. -/
theorem C17_fallback_only_for_missing (configPath q : String) :
    (error.ptrConfigError "invalid.json" "parse content" (errors.New "invalid JSON structure")
        ∈ chain (processRequest "invalid.json" q).ret ∧
      (errors.As (processRequest "invalid.json" q).ret).map (fun ce => ce.Op)
        = some "parse content" ∧
      errors.Unwrap (errors.New "invalid JSON structure") = .nil ∧
      errors.Is (processRequest "invalid.json" q).ret os.ErrNotExist = false) ∧
    ("  Underlying cause: File does not exist. Attempting fallback...\n"
        ∈ (processRequest configPath q).stdout ↔ configPath = "missing.json") ∧
    ((∃ ce, errors.As (loadAppConfig configPath).ret = some ce ∧
        errors.Is ce.Unwrap os.ErrNotExist = true) ↔ configPath = "missing.json") := by
  refine ⟨?_, ?_, ?_⟩
  · rw [processRequest_ret_of_config_fail q (by decide)]
    exact ⟨by decide, by decide, by decide, by decide⟩
  · by_cases ha : configPath = "missing.json"
    · subst ha
      simp [processRequest_stdout_missing]
    by_cases hb : configPath = "invalid.json"
    · subst hb
      rw [processRequest_stdout_invalid]
      simp only [List.mem_cons, List.mem_singleton, List.not_mem_nil, or_false, ha, iff_false,
        not_or]
      exact ⟨(ne_of_head_ne (firstLine_head _ _) (by decide)).symm, by decide⟩
    · rw [processRequest_stdout_ok q ha hb]
      simp only [List.mem_cons, List.mem_singleton, List.not_mem_nil, or_false, ha, iff_false,
        not_or]
      refine ⟨(ne_of_head_ne (firstLine_head _ _) (by decide)).symm,
        (ne_of_head_ne (loadedLine_head _) (by decide)).symm, ?_⟩
      split_ifs <;> decide
  · by_cases ha : configPath = "missing.json"
    · subst ha
      simp only [iff_true]
      exact ⟨_, rfl, by decide⟩
    by_cases hb : configPath = "invalid.json"
    · subst hb
      simp only [ha, iff_false]
      rintro ⟨ce, h1, h2⟩
      have h3 : ce = ⟨"invalid.json", "parse content", errors.New "invalid JSON structure"⟩ :=
        (Option.some.inj h1).symm
      subst h3
      revert h2
      decide
    · simp [loadAppConfig_other ha hb, errors.As, ha]

/-- C18: the branch that prints `"An unexpected error occurred while loading config.\n"`
(main.go lines 87-89) never runs.  Whenever `loadAppConfig` returns an error, that error
is itself a `*ConfigError`: the type match succeeds on the value itself, with no unwrap,
and returns that very value; and for every input the line of the else branch is not
among the writes of `processRequest`. -/
theorem C18_unexpected_branch_unreachable (configPath q : String) :
    ((loadAppConfig configPath).ret ≠ .nil →
      isConfigError (loadAppConfig configPath).ret = true ∧
      errors.As (loadAppConfig configPath).ret = asConfigError (loadAppConfig configPath).ret ∧
      ∃ ce, errors.As (loadAppConfig configPath).ret = some ce ∧
        ce.toError = (loadAppConfig configPath).ret) ∧
    "An unexpected error occurred while loading config.\n"
      ∉ (processRequest configPath q).stdout := by
  by_cases ha : configPath = "missing.json"
  · subst ha
    refine ⟨fun _ => ⟨by decide, by decide, _, rfl, by decide⟩, ?_⟩
    rw [processRequest_stdout_missing]
    simp only [List.mem_cons, List.mem_singleton, List.not_mem_nil, or_false, not_or]
    exact ⟨(ne_of_head_ne (firstLine_head _ _) (by decide)).symm, by decide, by decide⟩
  by_cases hb : configPath = "invalid.json"
  · subst hb
    refine ⟨fun _ => ⟨by decide, by decide, _, rfl, by decide⟩, ?_⟩
    rw [processRequest_stdout_invalid]
    simp only [List.mem_cons, List.mem_singleton, List.not_mem_nil, or_false, not_or]
    exact ⟨(ne_of_head_ne (firstLine_head _ _) (by decide)).symm, by decide⟩
  · refine ⟨fun h => absurd ((loadAppConfig_ret_eq_nil_iff configPath).2 ⟨ha, hb⟩) h, ?_⟩
    rw [processRequest_stdout_ok q ha hb]
    simp only [List.mem_cons, List.mem_singleton, List.not_mem_nil, or_false, not_or]
    refine ⟨(ne_of_head_ne (firstLine_head _ _) (by decide)).symm,
      (ne_of_head_ne (loadedLine_head _) (by decide)).symm, ?_⟩
    split_ifs <;> decide

/-- Witness of C18 on the second scenario of `main`. -/
theorem C18_unexpected_branch_unreachable_witness :
    (loadAppConfig "invalid.json").ret ≠ .nil ∧
    (isConfigError (loadAppConfig "invalid.json").ret = true ∧
      errors.As (loadAppConfig "invalid.json").ret
        = asConfigError (loadAppConfig "invalid.json").ret ∧
      ∃ ce, errors.As (loadAppConfig "invalid.json").ret = some ce ∧
        ce.toError = (loadAppConfig "invalid.json").ret) ∧
    "An unexpected error occurred while loading config.\n"
      ∉ (processRequest "invalid.json" "123").stdout :=
  ⟨by decide,
   (C18_unexpected_branch_unreachable "invalid.json" "123").1 (by decide),
   (C18_unexpected_branch_unreachable "invalid.json" "123").2⟩

/-! ## Recovering the failing stage from the returned chain -/

theorem fetchData_unknown {q : String} (h1 : q ≠ "123") (h2 : q ≠ "notfound_db")
    (h3 : q ≠ "custom_resource_err") :
    fetchData q = ("", errors.New ("unknown query ID: " ++ q)) := by
  simp [fetchData, h1, h2, h3]

/-- C19: the failing stage can be read off the returned chain.  For every input on which
`processRequest` returns an error, the type match for `*ConfigError` succeeds if and only
if stage 1 failed; a stage-1 failure matches neither `sql.ErrNoRows` nor
`ErrResourceNotFound` by identity; a stage-2 failure has no `*ConfigError` in its chain
and does not match `os.ErrNotExist` by identity. -/
theorem C19_stage_recoverable (configPath dataQueryID : String)
    (h : (processRequest configPath dataQueryID).ret ≠ .nil) :
    ((errors.As (processRequest configPath dataQueryID).ret).isSome = true ↔
      (loadAppConfig configPath).ret ≠ .nil) ∧
    ((loadAppConfig configPath).ret ≠ .nil →
      errors.Is (processRequest configPath dataQueryID).ret sql.ErrNoRows = false ∧
      errors.Is (processRequest configPath dataQueryID).ret ErrResourceNotFound = false) ∧
    ((loadAppConfig configPath).ret = .nil →
      errors.As (processRequest configPath dataQueryID).ret = none ∧
      (∀ x ∈ chain (processRequest configPath dataQueryID).ret, isConfigError x = false) ∧
      errors.Is (processRequest configPath dataQueryID).ret os.ErrNotExist = false) := by
  by_cases h1 : (loadAppConfig configPath).ret = .nil
  · have key : errors.As (processRequest configPath dataQueryID).ret = none ∧
        (∀ x ∈ chain (processRequest configPath dataQueryID).ret, isConfigError x = false) ∧
        errors.Is (processRequest configPath dataQueryID).ret os.ErrNotExist = false := by
      rw [processRequest_ret_of_config_ok dataQueryID h1] at h ⊢
      by_cases ha : dataQueryID = "123"
      · subst ha; exact absurd rfl h
      by_cases hb : dataQueryID = "notfound_db"
      · subst hb; exact ⟨by decide, by decide, by decide⟩
      by_cases hc : dataQueryID = "custom_resource_err"
      · subst hc; exact ⟨by decide, by decide, by decide⟩
      rw [fetchData_unknown ha hb hc]
      simp [errors.New, fmt.Errorf, errors.As, chain, isConfigError, errors.Is, errors.isLoop,
        os.ErrNotExist]
    refine ⟨?_, fun h2 => absurd h1 h2, fun _ => key⟩
    simp [key.1, h1]
  · have hp : configPath = "missing.json" ∨ configPath = "invalid.json" := by
      by_contra hne
      rw [not_or] at hne
      exact h1 ((loadAppConfig_ret_eq_nil_iff configPath).2 hne)
    have key : (errors.As (processRequest configPath dataQueryID).ret).isSome = true ∧
        errors.Is (processRequest configPath dataQueryID).ret sql.ErrNoRows = false ∧
        errors.Is (processRequest configPath dataQueryID).ret ErrResourceNotFound = false := by
      rw [processRequest_ret_of_config_fail dataQueryID h1]
      rcases hp with rfl | rfl
      · exact ⟨by decide, by decide, by decide⟩
      · exact ⟨by decide, by decide, by decide⟩
    exact ⟨⟨fun _ => h1, fun _ => key.1⟩, fun _ => key.2, fun h2 => absurd h2 h1⟩

/-- Witness of C19: a stage-1 failure and a stage-2 failure. -/
theorem C19_stage_recoverable_witness :
    ((processRequest "missing.json" "123").ret ≠ .nil ∧
      (loadAppConfig "missing.json").ret ≠ .nil ∧
      (errors.As (processRequest "missing.json" "123").ret).isSome = true ∧
      errors.Is (processRequest "missing.json" "123").ret sql.ErrNoRows = false ∧
      errors.Is (processRequest "missing.json" "123").ret ErrResourceNotFound = false) ∧
    ((processRequest "valid.json" "notfound_db").ret ≠ .nil ∧
      (loadAppConfig "valid.json").ret = .nil ∧
      errors.As (processRequest "valid.json" "notfound_db").ret = none ∧
      (∀ x ∈ chain (processRequest "valid.json" "notfound_db").ret, isConfigError x = false) ∧
      errors.Is (processRequest "valid.json" "notfound_db").ret os.ErrNotExist = false) :=
  ⟨⟨by decide, by decide,
    (C19_stage_recoverable "missing.json" "123" (by decide)).1.2 (by decide),
    (C19_stage_recoverable "missing.json" "123" (by decide)).2.1 (by decide)⟩,
   ⟨by decide, by decide,
    (C19_stage_recoverable "valid.json" "notfound_db" (by decide)).2.2 (by decide)⟩⟩

/-! ## The unknown-query error -/

/-- C20: for every query identifier `q` outside `"123"`, `"notfound_db"`,
`"custom_resource_err"`, the error of `fetchData q` is a plain `errors.New` value (the
format has `%s` and no `%w`): it unwraps to nil and matches neither `sql.ErrNoRows` nor
`ErrResourceNotFound` by identity.  Hence, on every config path that passes stage 1,
`processRequest` writes `"An unknown error occurred while fetching data.\n"` as its third
and last line, and returns a chain of exactly two elements: its stage-2 wrap and the
error of `fetchData`. -/
theorem C20_unknown_query_no_cause (q : String)
    (h1 : q ≠ "123") (h2 : q ≠ "notfound_db") (h3 : q ≠ "custom_resource_err") :
    (fetchData q).2 = errors.New ("unknown query ID: " ++ q) ∧
    errors.Unwrap (fetchData q).2 = .nil ∧
    errors.Is (fetchData q).2 sql.ErrNoRows = false ∧
    errors.Is (fetchData q).2 ErrResourceNotFound = false ∧
    (∀ configPath : String, configPath ≠ "missing.json" → configPath ≠ "invalid.json" →
      (processRequest configPath q).stdout =
        ["\n--- Processing request with config '" ++ configPath ++
            "' and data query '" ++ q ++ "' ---\n",
         "Successfully loaded config: " ++ configPath ++ "\n",
         "An unknown error occurred while fetching data.\n"] ∧
      chain (processRequest configPath q).ret
        = [(processRequest configPath q).ret, (fetchData q).2] ∧
      (chain (processRequest configPath q).ret).length = 2) := by
  have hf := fetchData_unknown h1 h2 h3
  refine ⟨by rw [hf], by rw [hf]; rfl, ?_, ?_, ?_⟩
  · rw [hf]; simp [errors.New, errors.Is, errors.isLoop, sql.ErrNoRows]
  · rw [hf]; simp [errors.New, errors.Is, errors.isLoop, ErrResourceNotFound]
  · intro configPath ha hb
    have hl : (loadAppConfig configPath).ret = .nil :=
      (loadAppConfig_ret_eq_nil_iff configPath).2 ⟨ha, hb⟩
    refine ⟨?_, ?_, ?_⟩
    · rw [processRequest_stdout_ok q ha hb]
      simp [h1, h2, h3]
    · rw [processRequest_ret_of_config_ok q hl, hf]
      simp [errors.New, fmt.Errorf, chain]
    · rw [processRequest_ret_of_config_ok q hl, hf]
      simp [errors.New, fmt.Errorf, chain]

/-- Witness of C20 on the query `"42"` with the config path `"valid.json"`. -/
theorem C20_unknown_query_no_cause_witness :
    (fetchData "42").2 = errors.New ("unknown query ID: " ++ "42") ∧
    errors.Unwrap (fetchData "42").2 = .nil ∧
    errors.Is (fetchData "42").2 sql.ErrNoRows = false ∧
    errors.Is (fetchData "42").2 ErrResourceNotFound = false ∧
    (processRequest "valid.json" "42").stdout =
      ["\n--- Processing request with config '" ++ "valid.json" ++
          "' and data query '" ++ "42" ++ "' ---\n",
       "Successfully loaded config: " ++ "valid.json" ++ "\n",
       "An unknown error occurred while fetching data.\n"] ∧
    (chain (processRequest "valid.json" "42").ret).length = 2 :=
  have w := C20_unknown_query_no_cause "42" (by decide) (by decide) (by decide)
  ⟨w.1, w.2.1, w.2.2.1, w.2.2.2.1,
   (w.2.2.2.2 "valid.json" (by decide) (by decide)).1,
   (w.2.2.2.2 "valid.json" (by decide) (by decide)).2.2⟩

end ErrorDemo
